import Mathlib

/-!
Shallow embedding of `src/pipeline/core/model/classifier.py` (class
`ClassifierModel`, a PyTorch-Lightning module).

Modelling conventions:
* A sample (one image) is an abstract type `Img`; a batch tensor of images is
  a `List Img`; a batch of logits is a `List (List ℚ)` (one row per sample);
  integer class labels are `ℕ`.
* External collaborators that the spec explicitly excludes (the backbone
  network from `initialize_classifier`, `nn.CrossEntropyLoss`,
  `nn.functional.softmax`, `torchvision.utils.make_grid`, `sklearn`'s
  `roc_curve`, the dtype cast `x.to(self.dtype)`, and the optimizer /
  scheduler factories) are abstract parameters or token structures; the
  file proves only orchestration facts that hold for every instantiation.
* A batched network application (`self.__classifier(x)`) and the batched
  denormalization / dtype cast are modelled as per-sample `List.map`, the
  standard semantics of vectorized application along the batch dimension;
  `nn.functional.softmax(logits, dim=1)` acts within each row, hence is a
  `List.map` of a row function.
* Calls to `self.log` and `self.logger.experiment.add_image/add_figure`
  are reified as a list of `LogEvent`s returned by each step; a figure
  event records the data the figure is built from.
* Python exceptions are `Option.none`: `configure_optimizers` raises
  `TypeError` when `zip` receives `None`; `on_test_epoch_end` raises
  `IndexError` at `self.__y_test_pred.shape[1]` when the accumulator is
  still the 1-D empty tensor `torch.tensor([])`, and a `RuntimeError` at
  `argmax(dim=1)` when the class dimension has size zero.
-/

/-- Criteria under which metrics are logged (`constants.Criterion`:
LOSS and ACCURACY are the two members used by the classifier). -/
inductive Criterion where
  | loss
  | accuracy
deriving DecidableEq

/-- Phases of the training lifecycle (`constants.Phase`): training,
validation, testing. -/
inductive Phase where
  | training
  | validation
  | testing
deriving DecidableEq

/-- String value of a phase, as interpolated into metric and image names. -/
def Phase.str : Phase → String
  | .training => "training"
  | .validation => "validation"
  | .testing => "testing"

/-- String value of a criterion. -/
def Criterion.str : Criterion → String
  | .loss => "loss"
  | .accuracy => "accuracy"

/-- Modelled from the spec: `constants.Phase.__call__` lives in
`pipeline.schemas.constants`, which is not under `src/`; per the glossary a
phase is "used to tag logged metrics", so calling a phase on a criterion
yields the criterion's metric name tagged with that phase. -/
def Phase.call (p : Phase) (c : Criterion) : String :=
  p.str ++ "_" ++ c.str

/-- Modelled from the spec: the model-configuration schema
(`config.ModelConfig`) is an excluded external collaborator; only the
backbone name, which the classifier interpolates into figure titles, is
represented. -/
structure ModelConfig where
  backbone : String
deriving DecidableEq

/-- Modelled from the spec: the optimizer-configuration schema
(`config.OptimizerConfig`), an excluded external collaborator, kept as an
abstract token. -/
structure OptimizerConfig where
  name : String
deriving DecidableEq

/-- Modelled from the spec: the scheduler-configuration schema
(`config.SchedulerConfig`), an excluded external collaborator, kept as an
abstract token. -/
structure SchedulerConfig where
  name : String
deriving DecidableEq

/-- Modelled from the spec: the optimizer object produced by the excluded
factory `pipeline.core.model.utils.initialize_optimizer`; it records the
configuration it was built from. -/
structure Optimizer where
  cfg : OptimizerConfig
deriving DecidableEq

/-- Modelled from the spec: the scheduler object produced by the excluded
factory `pipeline.core.model.utils.initialize_scheduler`; it records the
optimizer it is attached to, its configuration and the number of epochs. -/
structure LRScheduler where
  optim : Optimizer
  cfg : SchedulerConfig
  num_epochs : ℕ
deriving DecidableEq

/-- Modelled from the spec: the factory `initialize_optimizer` builds one
optimizer from a configuration. -/
def initialize_optimizer (cfg : OptimizerConfig) : Optimizer :=
  ⟨cfg⟩

/-- Modelled from the spec: the factory `initialize_scheduler` builds one
scheduler attached to a given optimizer. -/
def initialize_scheduler (optim : Optimizer) (cfg : SchedulerConfig)
    (num_epochs : ℕ) : LRScheduler :=
  ⟨optim, cfg, num_epochs⟩

/-- The inner dict `{"scheduler": sched, "interval": "step", "frequency": 1}`
returned by `configure_optimizers`. -/
structure LRSchedulerEntry where
  scheduler : LRScheduler
  interval : String
  frequency : ℕ
deriving DecidableEq

/-- One entry of the tuple returned by `configure_optimizers`:
`{"optimizer": optim, "lr_scheduler": {...}}`. -/
structure OptimizerEntry where
  optimizer : Optimizer
  lr_scheduler : LRSchedulerEntry
deriving DecidableEq

/-- A reified logging effect: `self.log(name, value)` becomes `metric`;
`add_image(name, grid, epoch)` becomes `image`; the two `add_figure` calls
become `rocFigure` (recording fpr, tpr and the class index the figure is
plotted from) and `cmFigure` (recording the true and predicted labels the
confusion matrix is computed from). -/
inductive LogEvent (Img : Type) where
  | metric (name : String) (value : ℚ)
  | image (name : String) (grid : Img)
  | rocFigure (name : String) (fpr tpr : List ℚ) (classIndex : ℕ)
  | cmFigure (name : String) (y_true y_pred : List ℕ)

/-- Payload of a log event with its name stripped, used to state that two
steps log the same data under different phase tags. -/
inductive LogPayload (Img : Type) where
  | metric (value : ℚ)
  | image (grid : Img)
  | rocFigure (fpr tpr : List ℚ) (classIndex : ℕ)
  | cmFigure (y_true y_pred : List ℕ)

/-- Strip the name off a log event. -/
def LogEvent.payload {Img : Type} : LogEvent Img → LogPayload Img
  | .metric _ v => .metric v
  | .image _ g => .image g
  | .rocFigure _ f t i => .rocFigure f t i
  | .cmFigure _ t p => .cmFigure t p

/-- Name of a log event. -/
def LogEvent.nameOf {Img : Type} : LogEvent Img → String
  | .metric n _ => n
  | .image n _ => n
  | .rocFigure n _ _ _ => n
  | .cmFigure n _ _ => n

/-- Whether an event is a `self.log` metric. -/
def LogEvent.isMetric {Img : Type} : LogEvent Img → Bool
  | .metric _ _ => true
  | _ => false

/-- Whether an event is an `add_image` sample-image grid. -/
def LogEvent.isImage {Img : Type} : LogEvent Img → Bool
  | .image _ _ => true
  | _ => false

/-- Names of the metric events in a step's log, in order. -/
def metricNames {Img : Type} (evs : List (LogEvent Img)) : List String :=
  (evs.filter LogEvent.isMetric).map LogEvent.nameOf

/-- The image events in a step's log, in order. -/
def imageEvents {Img : Type} (evs : List (LogEvent Img)) : List (LogEvent Img) :=
  evs.filter LogEvent.isImage

/-- Index of the first maximal element of a row, auxiliary loop: remaining
values, index of the next value, best index so far, best value so far. -/
def argmaxAux : List ℚ → ℕ → ℕ → ℚ → ℕ
  | [], _, bi, _ => bi
  | v :: vs, i, bi, bv =>
      if bv < v then argmaxAux vs (i + 1) i v else argmaxAux vs (i + 1) bi bv

/-- Index of the first maximal element of a row: `torch.argmax` along the
class dimension, which returns the first occurrence of the maximum. The
empty row is mapped to 0 (torch raises there; the embedding only applies
this to nonempty rows). -/
def argmaxIdx : List ℚ → ℕ
  | [] => 0
  | v :: vs => argmaxAux vs 1 0 v

/-- Accuracy of a batch: `(logits.argmax(dim=1) == y).float().mean()` —
the fraction of rows whose argmax equals the label. -/
def accuracy (logits : List (List ℚ)) (y : List ℕ) : ℚ :=
  let hits := (List.zip (logits.map argmaxIdx) y).map
    (fun p => if p.1 = p.2 then (1 : ℚ) else 0)
  hits.sum / hits.length

/-- Column `i` of a batch of probability rows: `tensor[:, i]`. -/
def column (rows : List (List ℚ)) (i : ℕ) : List ℚ :=
  rows.map (fun r => r.getD i 0)

/-- Apply the optional denormalization function to a batch:
`self.__denorm_fn(x) if self.__denorm_fn else x`, vectorized per sample. -/
def denormApply {Img : Type} (denorm_fn : Option (Img → Img))
    (x : List Img) : List Img :=
  match denorm_fn with
  | some f => x.map f
  | none => x

section ClassifierModelDefs

variable {Img : Type}

/-- State of a `ClassifierModel` instance: the private attributes set in
`__init__` plus `example_input_array`. `loss_fn` holds the bound
`nn.CrossEntropyLoss()`; `classifier` holds the per-sample semantics of the
backbone network returned by `initialize_classifier`. -/
structure ClassifierModel (Img : Type) where
  model_config : ModelConfig
  denorm_fn : Option (Img → Img)
  classifier : Img → List ℚ
  loss_fn : List (List ℚ) → List ℕ → ℚ
  optimizers : Option (List Optimizer)
  schedulers : Option (List LRScheduler)
  y_test_true : List ℕ
  y_test_pred : List (List ℚ)
  example_input_array : Option (List Img)

variable (initialize_classifier : ModelConfig → Img → List ℚ)
variable (crossEntropyLoss : List (List ℚ) → List ℕ → ℚ)
variable (to_dtype : Img → Img)
variable (make_grid : List Img → Img)
variable (softmax : List ℚ → List ℚ)
variable (roc_curve : List Bool → List ℚ → List ℚ × List ℚ)

/-- Constructor `ClassifierModel.__init__`: binds the config, the optional
denormalization function, the backbone classifier built by the external
factory, and `nn.CrossEntropyLoss()`; the optimizer and scheduler lists
start as `None` and the two test accumulators as empty tensors. -/
def ClassifierModel.init (cfg : ModelConfig) (denorm_fn : Option (Img → Img)) :
    ClassifierModel Img :=
  { model_config := cfg
    denorm_fn := denorm_fn
    classifier := initialize_classifier cfg
    loss_fn := crossEntropyLoss
    optimizers := none
    schedulers := none
    y_test_true := []
    y_test_pred := []
    example_input_array := none }

/-- Method `training_setup`: builds a one-element optimizer list from the
optimizer config and, for each optimizer in that list, one scheduler from
the scheduler config; stores `input_sample` as `example_input_array` when
given. -/
def ClassifierModel.training_setup (m : ClassifierModel Img) (num_epochs : ℕ)
    (optimizer_config : OptimizerConfig) (scheduler_config : SchedulerConfig)
    (input_sample : Option (List Img)) : ClassifierModel Img :=
  let optims := [initialize_optimizer optimizer_config]
  { m with
    optimizers := some optims
    schedulers := some (optims.map
      (fun optim => initialize_scheduler optim scheduler_config num_epochs))
    example_input_array :=
      match input_sample with
      | some s => some s
      | none => m.example_input_array }

/-- Method `configure_optimizers`: zips the optimizer and scheduler lists
into one entry per pair, each pairing the optimizer with its scheduler under
interval "step" and frequency 1. If `training_setup` has not run, both
lists are still `None` and `zip(None, None)` raises `TypeError` (`none`). -/
def ClassifierModel.configure_optimizers (m : ClassifierModel Img) :
    Option (List OptimizerEntry) :=
  match m.optimizers, m.schedulers with
  | some optims, some scheds =>
      some ((List.zip optims scheds).map
        (fun p => ⟨p.1, ⟨p.2, "step", 1⟩⟩))
  | _, _ => none

/-- Method `forward`: casts the input batch to the model dtype and applies
the backbone classifier, per sample. -/
def ClassifierModel.forward (m : ClassifierModel Img) (x : List Img) :
    List (List ℚ) :=
  (x.map to_dtype).map m.classifier

/-- Method `__common_step`: on batch index 0 logs a grid of the (optionally
denormalized) batch images under the phase's sample-image tag; computes the
logits by `forward`, the loss by the bound loss function, and the accuracy;
logs both under the phase's tags and returns the loss. -/
def ClassifierModel.common_step (m : ClassifierModel Img)
    (batch : List Img × List ℕ) (batch_idx : ℕ) (phase : Phase) :
    ℚ × List (LogEvent Img) :=
  let x := batch.1
  let y := batch.2
  let imgEvents : List (LogEvent Img) :=
    if batch_idx = 0 then
      [LogEvent.image ("sample_images_" ++ phase.str)
        (make_grid (denormApply m.denorm_fn x))]
    else []
  let logits := m.forward to_dtype x
  let loss := m.loss_fn logits y
  let acc := accuracy logits y
  (loss,
    imgEvents ++
      [LogEvent.metric (phase.call Criterion.loss) loss,
       LogEvent.metric (phase.call Criterion.accuracy) acc])

/-- Method `training_step`: `__common_step` under `Phase.TRAINING`. -/
def ClassifierModel.training_step (m : ClassifierModel Img)
    (batch : List Img × List ℕ) (batch_idx : ℕ) : ℚ × List (LogEvent Img) :=
  m.common_step to_dtype make_grid batch batch_idx Phase.training

/-- Method `validation_step`: `__common_step` under `Phase.VALIDATION`. -/
def ClassifierModel.validation_step (m : ClassifierModel Img)
    (batch : List Img × List ℕ) (batch_idx : ℕ) : ℚ × List (LogEvent Img) :=
  m.common_step to_dtype make_grid batch batch_idx Phase.validation

/-- Method `test_step`: computes logits, loss and accuracy like
`__common_step` (but never logs sample images), logs them under the TESTING
tags, appends the batch labels to `y_test_true` and the softmax probability
rows to `y_test_pred`, and returns the loss together with the updated
state. -/
def ClassifierModel.test_step (m : ClassifierModel Img)
    (batch : List Img × List ℕ) (_batch_idx : ℕ) :
    ℚ × ClassifierModel Img × List (LogEvent Img) :=
  let x := batch.1
  let y := batch.2
  let logits := m.forward to_dtype x
  let loss := m.loss_fn logits y
  let acc := accuracy logits y
  let probis := logits.map softmax
  (loss,
    { m with
      y_test_true := m.y_test_true ++ y
      y_test_pred := m.y_test_pred ++ probis },
    [LogEvent.metric (Phase.testing.call Criterion.loss) loss,
     LogEvent.metric (Phase.testing.call Criterion.accuracy) acc])

/-- Method `on_test_epoch_end`: for each class index `i` below
`y_test_pred.shape[1]` computes an ROC curve from the indicator labels
`y_test_true == i` and the class's predicted probability column and logs
its figure; then logs one confusion-matrix figure computed from the
accumulated true labels and the argmax of the accumulated predictions;
finally resets both accumulators to empty tensors. When the prediction
accumulator is still the 1-D empty tensor, `shape[1]` raises `IndexError`;
when the class dimension has size zero, `argmax(dim=1)` raises — both are
`none`. -/
def ClassifierModel.on_test_epoch_end (m : ClassifierModel Img) :
    Option (ClassifierModel Img × List (LogEvent Img)) :=
  match m.y_test_pred with
  | [] => none
  | r0 :: _ =>
    let numClasses := r0.length
    if numClasses = 0 then none
    else
      let rocEvents := (List.range numClasses).map (fun i =>
        let ft := roc_curve (m.y_test_true.map (fun l => l = i))
          (column m.y_test_pred i)
        LogEvent.rocFigure
          ("ROC Curve Class " ++ toString i ++ " (" ++
            m.model_config.backbone ++ ")")
          ft.1 ft.2 i)
      let y_true := m.y_test_true
      let y_pred := m.y_test_pred.map argmaxIdx
      some
        ({ m with y_test_true := [], y_test_pred := [] },
          rocEvents ++ [LogEvent.cmFigure "Confusion Matrix" y_true y_pred])

/-- States of a `ClassifierModel` reachable through its lifecycle: the
freshly constructed model, and anything obtained by `training_setup`, a
`test_step` on a batch whose image and label counts agree (as a dataloader
delivers), or a completed `on_test_epoch_end`. `training_step` and
`validation_step` do not modify the state. -/
inductive ClassifierModel.Reach :
    ClassifierModel Img → Prop where
  | init (cfg : ModelConfig) (denorm_fn : Option (Img → Img)) :
      ClassifierModel.Reach
        (ClassifierModel.init initialize_classifier crossEntropyLoss cfg denorm_fn)
  | setup {m : ClassifierModel Img} (num_epochs : ℕ)
      (ocfg : OptimizerConfig) (scfg : SchedulerConfig)
      (inp : Option (List Img)) :
      ClassifierModel.Reach m →
      ClassifierModel.Reach (m.training_setup num_epochs ocfg scfg inp)
  | test {m : ClassifierModel Img} (x : List Img) (y : List ℕ)
      (batch_idx : ℕ) :
      ClassifierModel.Reach m → x.length = y.length →
      ClassifierModel.Reach (m.test_step to_dtype softmax (x, y) batch_idx).2.1
  | epoch_end {m m' : ClassifierModel Img} {evs : List (LogEvent Img)} :
      ClassifierModel.Reach m →
      m.on_test_epoch_end roc_curve = some (m', evs) →
      ClassifierModel.Reach m'

end ClassifierModelDefs

section ClassifierModelProofs

variable {Img : Type}

/-- Helper: a successful `on_test_epoch_end` yields exactly the input state
with both test accumulators reset to empty. -/
theorem ClassifierModel.on_test_epoch_end_eq_some
    (roc_curve : List Bool → List ℚ → List ℚ × List ℚ)
    {m m' : ClassifierModel Img} {evs : List (LogEvent Img)}
    (h : m.on_test_epoch_end roc_curve = some (m', evs)) :
    m' = { m with y_test_true := [], y_test_pred := [] } := by
  cases hp : m.y_test_pred with
  | nil =>
      simp [ClassifierModel.on_test_epoch_end, hp] at h
  | cons r0 rest =>
      by_cases hC : r0.length = 0
      · simp [ClassifierModel.on_test_epoch_end, hp, hC] at h
      · simp [ClassifierModel.on_test_epoch_end, hp, hC] at h
        exact h.1.symm

/-- C1: for every batch (x, y), each of `training_step`, `validation_step`
and `test_step` returns the loss obtained by applying the bound loss
function to the logits `forward(x)` and the labels `y`, and logs that loss
together with the accuracy (the mean of `argmax(dim=1) == y`). -/
theorem claim1_steps_return_and_log_loss_and_accuracy
    (to_dtype : Img → Img) (make_grid : List Img → Img)
    (softmax : List ℚ → List ℚ) (m : ClassifierModel Img)
    (x : List Img) (y : List ℕ) (batch_idx : ℕ) :
    (m.training_step to_dtype make_grid (x, y) batch_idx).1
        = m.loss_fn (m.forward to_dtype x) y
    ∧ (m.validation_step to_dtype make_grid (x, y) batch_idx).1
        = m.loss_fn (m.forward to_dtype x) y
    ∧ (m.test_step to_dtype softmax (x, y) batch_idx).1
        = m.loss_fn (m.forward to_dtype x) y
    ∧ LogEvent.metric (Phase.training.call Criterion.loss)
          (m.loss_fn (m.forward to_dtype x) y)
        ∈ (m.training_step to_dtype make_grid (x, y) batch_idx).2
    ∧ LogEvent.metric (Phase.training.call Criterion.accuracy)
          (accuracy (m.forward to_dtype x) y)
        ∈ (m.training_step to_dtype make_grid (x, y) batch_idx).2
    ∧ LogEvent.metric (Phase.validation.call Criterion.loss)
          (m.loss_fn (m.forward to_dtype x) y)
        ∈ (m.validation_step to_dtype make_grid (x, y) batch_idx).2
    ∧ LogEvent.metric (Phase.validation.call Criterion.accuracy)
          (accuracy (m.forward to_dtype x) y)
        ∈ (m.validation_step to_dtype make_grid (x, y) batch_idx).2
    ∧ LogEvent.metric (Phase.testing.call Criterion.loss)
          (m.loss_fn (m.forward to_dtype x) y)
        ∈ (m.test_step to_dtype softmax (x, y) batch_idx).2.2
    ∧ LogEvent.metric (Phase.testing.call Criterion.accuracy)
          (accuracy (m.forward to_dtype x) y)
        ∈ (m.test_step to_dtype softmax (x, y) batch_idx).2.2 := by
  refine ⟨rfl, rfl, rfl, ?_, ?_, ?_, ?_, ?_, ?_⟩ <;>
    by_cases h : batch_idx = 0 <;>
      simp [ClassifierModel.training_step, ClassifierModel.validation_step,
        ClassifierModel.test_step, ClassifierModel.common_step, h]

/-- C2: metrics logged by `training_step` carry the training phase's tags,
those of `validation_step` the validation phase's, those of `test_step` the
testing phase's, and tags of distinct phases never coincide. -/
theorem claim2_metrics_tagged_with_own_phase
    (to_dtype : Img → Img) (make_grid : List Img → Img)
    (softmax : List ℚ → List ℚ) (m : ClassifierModel Img)
    (batch : List Img × List ℕ) (batch_idx : ℕ) :
    metricNames (m.training_step to_dtype make_grid batch batch_idx).2
        = [Phase.training.call Criterion.loss,
           Phase.training.call Criterion.accuracy]
    ∧ metricNames (m.validation_step to_dtype make_grid batch batch_idx).2
        = [Phase.validation.call Criterion.loss,
           Phase.validation.call Criterion.accuracy]
    ∧ metricNames (m.test_step to_dtype softmax batch batch_idx).2.2
        = [Phase.testing.call Criterion.loss,
           Phase.testing.call Criterion.accuracy]
    ∧ ∀ p q : Phase, ∀ c c' : Criterion, p ≠ q → p.call c ≠ q.call c' := by
  refine ⟨?_, ?_, ?_, ?_⟩
  · by_cases h : batch_idx = 0 <;>
      simp [ClassifierModel.training_step, ClassifierModel.common_step, h,
        metricNames, LogEvent.isMetric, LogEvent.nameOf]
  · by_cases h : batch_idx = 0 <;>
      simp [ClassifierModel.validation_step, ClassifierModel.common_step, h,
        metricNames, LogEvent.isMetric, LogEvent.nameOf]
  · simp [ClassifierModel.test_step, metricNames, LogEvent.isMetric,
      LogEvent.nameOf]
  · intro p q c c' hpq
    cases p <;> cases q <;> cases c <;> cases c' <;>
      first
        | exact absurd rfl hpq
        | decide

/-- C3: `training_setup` creates exactly one optimizer and pairs it with
exactly one scheduler, and `configure_optimizers` afterwards returns exactly
one entry per pair, stepping the scheduler with interval "step" and
frequency 1. -/
theorem claim3_one_optimizer_one_scheduler_one_entry
    (m : ClassifierModel Img) (num_epochs : ℕ)
    (ocfg : OptimizerConfig) (scfg : SchedulerConfig)
    (inp : Option (List Img)) :
    (m.training_setup num_epochs ocfg scfg inp).optimizers
        = some [initialize_optimizer ocfg]
    ∧ (m.training_setup num_epochs ocfg scfg inp).schedulers
        = some [initialize_scheduler (initialize_optimizer ocfg) scfg num_epochs]
    ∧ (m.training_setup num_epochs ocfg scfg inp).configure_optimizers
        = some [⟨initialize_optimizer ocfg,
            ⟨initialize_scheduler (initialize_optimizer ocfg) scfg num_epochs,
              "step", 1⟩⟩] :=
  ⟨rfl, rfl, rfl⟩

/-- C4: on the same batch in the same model state, `training_step` and
`validation_step` return equal losses; both are `__common_step` at their
phase, and their logs carry identical payloads (losses, accuracies, image
grids) — only the phase tags differ. -/
theorem claim4_training_validation_agree_up_to_phase
    (to_dtype : Img → Img) (make_grid : List Img → Img)
    (m : ClassifierModel Img) (batch : List Img × List ℕ) (batch_idx : ℕ) :
    (m.training_step to_dtype make_grid batch batch_idx).1
        = (m.validation_step to_dtype make_grid batch batch_idx).1
    ∧ m.training_step to_dtype make_grid batch batch_idx
        = m.common_step to_dtype make_grid batch batch_idx Phase.training
    ∧ m.validation_step to_dtype make_grid batch batch_idx
        = m.common_step to_dtype make_grid batch batch_idx Phase.validation
    ∧ (m.training_step to_dtype make_grid batch batch_idx).2.map LogEvent.payload
        = (m.validation_step to_dtype make_grid batch batch_idx).2.map
            LogEvent.payload := by
  refine ⟨rfl, rfl, rfl, ?_⟩
  by_cases h : batch_idx = 0 <;>
    simp [ClassifierModel.training_step, ClassifierModel.validation_step,
      ClassifierModel.common_step, h, LogEvent.payload]

/-- C5: in training and validation steps a grid of the batch's sample
images is logged exactly when the batch index is 0, the grid being built
from the batch passed through `denorm_fn` when one was supplied at
construction and from the unchanged batch otherwise. -/
theorem claim5_sample_images_logged_iff_first_batch
    (to_dtype : Img → Img) (make_grid : List Img → Img)
    (m : ClassifierModel Img) (x : List Img) (y : List ℕ) (batch_idx : ℕ) :
    imageEvents (m.training_step to_dtype make_grid (x, y) batch_idx).2
        = (if batch_idx = 0 then
            [LogEvent.image ("sample_images_" ++ Phase.training.str)
              (make_grid (denormApply m.denorm_fn x))]
          else [])
    ∧ imageEvents (m.validation_step to_dtype make_grid (x, y) batch_idx).2
        = (if batch_idx = 0 then
            [LogEvent.image ("sample_images_" ++ Phase.validation.str)
              (make_grid (denormApply m.denorm_fn x))]
          else [])
    ∧ (∀ f : Img → Img, denormApply (some f) x = x.map f)
    ∧ denormApply (none : Option (Img → Img)) x = x := by
  refine ⟨?_, ?_, fun f => rfl, rfl⟩ <;>
    by_cases h : batch_idx = 0 <;>
      simp [ClassifierModel.training_step, ClassifierModel.validation_step,
        ClassifierModel.common_step, h, imageEvents, LogEvent.isImage]

/-- C6: at the end of a test epoch (the accumulated prediction tensor is
nonempty and rectangular with at least one class, as `torch.cat` of softmax
rows guarantees), `on_test_epoch_end` produces exactly one ROC-curve figure
per class — class `i` from the indicator labels `y_test_true == i` and
column `i` of the accumulated predictions — followed by exactly one
confusion-matrix figure computed from the accumulated true labels and the
argmax of the accumulated predictions. -/
theorem claim6_epoch_end_roc_per_class_and_confusion_matrix
    (roc_curve : List Bool → List ℚ → List ℚ × List ℚ)
    (m : ClassifierModel Img) (r0 : List ℚ) (rest : List (List ℚ))
    (hpred : m.y_test_pred = r0 :: rest) (hC : r0.length ≠ 0)
    (_hrect : ∀ row ∈ m.y_test_pred, row.length = r0.length) :
    m.on_test_epoch_end roc_curve = some
      ({ m with y_test_true := [], y_test_pred := [] },
        (List.range r0.length).map (fun i =>
          LogEvent.rocFigure
            ("ROC Curve Class " ++ toString i ++ " (" ++
              m.model_config.backbone ++ ")")
            (roc_curve (m.y_test_true.map (fun l => l = i))
              (column m.y_test_pred i)).1
            (roc_curve (m.y_test_true.map (fun l => l = i))
              (column m.y_test_pred i)).2 i)
        ++ [LogEvent.cmFigure "Confusion Matrix" m.y_test_true
              (m.y_test_pred.map argmaxIdx)]) := by
  simp only [ClassifierModel.on_test_epoch_end, hpred, hC, if_false]

/-- C7: `forward` returns the backbone classifier applied to the input cast
to the model's dtype — sample-wise, with no other transformation, hence
preserving the batch size. -/
theorem claim7_forward_is_cast_then_classifier
    (to_dtype : Img → Img) (m : ClassifierModel Img) (x : List Img) :
    m.forward to_dtype x = (x.map to_dtype).map m.classifier
    ∧ m.forward to_dtype x = x.map (fun s => m.classifier (to_dtype s))
    ∧ (m.forward to_dtype x).length = x.length := by
  refine ⟨rfl, ?_, ?_⟩ <;> simp [ClassifierModel.forward]

/-- C8: in every reachable state the two test accumulators are aligned —
they start empty, every `test_step` on a batch of n images and n labels
appends n labels to `y_test_true` and n softmax rows to `y_test_pred`, and
`on_test_epoch_end` resets both together — so `y_test_true` always has
exactly as many entries as `y_test_pred` has rows. -/
theorem claim8_test_accumulators_stay_aligned
    (initialize_classifier : ModelConfig → Img → List ℚ)
    (crossEntropyLoss : List (List ℚ) → List ℕ → ℚ)
    (to_dtype : Img → Img) (softmax : List ℚ → List ℚ)
    (roc_curve : List Bool → List ℚ → List ℚ × List ℚ)
    (m : ClassifierModel Img)
    (h : ClassifierModel.Reach initialize_classifier crossEntropyLoss
      to_dtype softmax roc_curve m) :
    m.y_test_true.length = m.y_test_pred.length := by
  induction h with
  | init cfg denorm_fn => rfl
  | setup num_epochs ocfg scfg inp _ ih =>
      simpa [ClassifierModel.training_setup] using ih
  | test x y batch_idx _ hxy ih =>
      simp [ClassifierModel.test_step, ClassifierModel.forward, ih, hxy]
  | epoch_end _ hend ih =>
      rw [ClassifierModel.on_test_epoch_end_eq_some roc_curve hend]
      rfl

/-- C9 (amended): whenever `on_test_epoch_end` completes without raising —
the accumulated prediction tensor is nonempty with at least one class — it
resets both test accumulators to empty tensors and leaves every other
component of the model state (config, denormalization function, classifier,
loss function, optimizers, schedulers, example input) unchanged. -/
theorem claim9_epoch_end_resets_only_accumulators
    (roc_curve : List Bool → List ℚ → List ℚ × List ℚ)
    (m m' : ClassifierModel Img) (evs : List (LogEvent Img))
    (h : m.on_test_epoch_end roc_curve = some (m', evs)) :
    m'.y_test_true = [] ∧ m'.y_test_pred = []
    ∧ m'.model_config = m.model_config
    ∧ m'.denorm_fn = m.denorm_fn
    ∧ m'.classifier = m.classifier
    ∧ m'.loss_fn = m.loss_fn
    ∧ m'.optimizers = m.optimizers
    ∧ m'.schedulers = m.schedulers
    ∧ m'.example_input_array = m.example_input_array := by
  rw [ClassifierModel.on_test_epoch_end_eq_some roc_curve h]
  exact ⟨rfl, rfl, rfl, rfl, rfl, rfl, rfl, rfl, rfl⟩

/-- C10: before `training_setup` has run, the optimizer and scheduler lists
are still `None` and `configure_optimizers` fails (`zip(None, None)` raises
`TypeError`); after any call to `training_setup` it succeeds. -/
theorem claim10_configure_optimizers_requires_training_setup
    (initialize_classifier : ModelConfig → Img → List ℚ)
    (crossEntropyLoss : List (List ℚ) → List ℕ → ℚ)
    (cfg : ModelConfig) (denorm_fn : Option (Img → Img))
    (m : ClassifierModel Img) (num_epochs : ℕ)
    (ocfg : OptimizerConfig) (scfg : SchedulerConfig)
    (inp : Option (List Img)) :
    (ClassifierModel.init initialize_classifier crossEntropyLoss cfg
        denorm_fn).configure_optimizers = none
    ∧ ((m.training_setup num_epochs ocfg scfg inp).configure_optimizers).isSome
        = true :=
  ⟨rfl, rfl⟩

end ClassifierModelProofs

/-! Concrete instantiation of the abstract collaborators, used by the
witnesses below: images are natural numbers, the backbone maps every sample
to the logits [1, 0], the loss is constantly 0, softmax and the dtype cast
are the identity, and `roc_curve` returns the diagonal. -/

/-- Concrete backbone factory for witnesses. -/
def wInitClassifier : ModelConfig → ℕ → List ℚ := fun _ _ => [1, 0]

/-- Concrete loss function for witnesses. -/
def wCEL : List (List ℚ) → List ℕ → ℚ := fun _ _ => 0

/-- Concrete dtype cast for witnesses. -/
def wToDtype : ℕ → ℕ := fun n => n

/-- Concrete image-grid builder for witnesses. -/
def wMakeGrid : List ℕ → ℕ := fun _ => 0

/-- Concrete softmax for witnesses. -/
def wSoftmax : List ℚ → List ℚ := fun r => r

/-- Concrete ROC-curve computation for witnesses. -/
def wRoc : List Bool → List ℚ → List ℚ × List ℚ := fun _ _ => ([0, 1], [0, 1])

/-- Freshly constructed concrete model. -/
def wModel0 : ClassifierModel ℕ :=
  ClassifierModel.init wInitClassifier wCEL ⟨"resnet"⟩ none

/-- Concrete model with one accumulated test batch: one true label 0 and
one two-class probability row. -/
def wModelAcc : ClassifierModel ℕ :=
  { wModel0 with y_test_true := [0], y_test_pred := [[1, 0]] }

/-- Witness for C2 at a concrete model, batch and phase pair. -/
theorem claim2_witness :
    metricNames ((wModel0.test_step wToDtype wSoftmax ([5], [0]) 0).2.2)
      = [Phase.testing.call Criterion.loss, Phase.testing.call Criterion.accuracy]
    ∧ Phase.training.call Criterion.loss ≠ Phase.validation.call Criterion.loss :=
  ⟨(claim2_metrics_tagged_with_own_phase wToDtype wMakeGrid wSoftmax wModel0
      ([5], [0]) 0).2.2.1,
   (claim2_metrics_tagged_with_own_phase wToDtype wMakeGrid wSoftmax wModel0
      ([5], [0]) 0).2.2.2 Phase.training Phase.validation Criterion.loss
      Criterion.loss (by decide)⟩

/-- Witness for C6: the accumulated two-class model yields one ROC figure
per class and one confusion-matrix figure, then resets. -/
theorem claim6_witness :
    wModelAcc.on_test_epoch_end wRoc = some
      ({ wModelAcc with y_test_true := [], y_test_pred := [] },
        [LogEvent.rocFigure "ROC Curve Class 0 (resnet)" [0, 1] [0, 1] 0,
         LogEvent.rocFigure "ROC Curve Class 1 (resnet)" [0, 1] [0, 1] 1,
         LogEvent.cmFigure "Confusion Matrix" [0] [0]]) := by
  have h := claim6_epoch_end_roc_per_class_and_confusion_matrix wRoc wModelAcc
    [1, 0] [] rfl (by decide) (by decide)
  exact h

/-- Witness for C8: after construction and one matched test batch, the
accumulators are aligned. -/
theorem claim8_witness :
    ((wModel0.test_step wToDtype wSoftmax ([5], [0]) 0).2.1).y_test_true.length
      = ((wModel0.test_step wToDtype wSoftmax ([5], [0]) 0).2.1).y_test_pred.length :=
  claim8_test_accumulators_stay_aligned wInitClassifier wCEL wToDtype wSoftmax
    wRoc _
    (ClassifierModel.Reach.test [5] [0] 0
      (ClassifierModel.Reach.init ⟨"resnet"⟩ none) rfl)

/-- Helper: concrete evaluation of `on_test_epoch_end` at the accumulated
two-class model. -/
theorem wModelAcc_epoch_end_eq :
    wModelAcc.on_test_epoch_end wRoc = some
      ({ wModelAcc with y_test_true := [], y_test_pred := [] },
        [LogEvent.rocFigure "ROC Curve Class 0 (resnet)" [0, 1] [0, 1] 0,
         LogEvent.rocFigure "ROC Curve Class 1 (resnet)" [0, 1] [0, 1] 1,
         LogEvent.cmFigure "Confusion Matrix" [0] [0]]) := rfl

/-- Witness for C9 (amended) at the accumulated two-class model. -/
theorem claim9_witness :
    ({ wModelAcc with y_test_true := [], y_test_pred := [] } :
        ClassifierModel ℕ).y_test_true = []
    ∧ ({ wModelAcc with y_test_true := [], y_test_pred := [] } :
        ClassifierModel ℕ).y_test_pred = []
    ∧ ({ wModelAcc with y_test_true := [], y_test_pred := [] } :
        ClassifierModel ℕ).model_config = wModelAcc.model_config
    ∧ ({ wModelAcc with y_test_true := [], y_test_pred := [] } :
        ClassifierModel ℕ).denorm_fn = wModelAcc.denorm_fn
    ∧ ({ wModelAcc with y_test_true := [], y_test_pred := [] } :
        ClassifierModel ℕ).classifier = wModelAcc.classifier
    ∧ ({ wModelAcc with y_test_true := [], y_test_pred := [] } :
        ClassifierModel ℕ).loss_fn = wModelAcc.loss_fn
    ∧ ({ wModelAcc with y_test_true := [], y_test_pred := [] } :
        ClassifierModel ℕ).optimizers = wModelAcc.optimizers
    ∧ ({ wModelAcc with y_test_true := [], y_test_pred := [] } :
        ClassifierModel ℕ).schedulers = wModelAcc.schedulers
    ∧ ({ wModelAcc with y_test_true := [], y_test_pred := [] } :
        ClassifierModel ℕ).example_input_array = wModelAcc.example_input_array :=
  claim9_epoch_end_resets_only_accumulators wRoc wModelAcc
    { wModelAcc with y_test_true := [], y_test_pred := [] }
    [LogEvent.rocFigure "ROC Curve Class 0 (resnet)" [0, 1] [0, 1] 0,
     LogEvent.rocFigure "ROC Curve Class 1 (resnet)" [0, 1] [0, 1] 1,
     LogEvent.cmFigure "Confusion Matrix" [0] [0]]
    wModelAcc_epoch_end_eq

/-- Counterexample for C9 as stated: on the freshly constructed model the
prediction accumulator is still the 1-D empty tensor, `shape[1]` raises
`IndexError`, and `on_test_epoch_end` does not reset anything. -/
theorem claim9_counterexample :
    wModel0.on_test_epoch_end wRoc = none := rfl
